import Mathlib

/-!
Shallow embedding of `src/kstat.rs` (jclulow/sys-info-rs): a minimal wrapper
around the illumos/Solaris libkstat(3LIB) facility, with four public
accessors (`cpu_mhz`, `boot_time`, `nproc`, `pages`).

The kstat chain is modelled as a finite list of groups; the cursor pointer
`ksp` is modelled as the suffix of the chain starting at the pointed-to node
(`[]` models the null pointer, and `ks_next` is the tail of the suffix).
The external facility primitives (`kstat_lookup`, `kstat_read`,
`kstat_data_lookup`) are not code of this repository; they are modelled from
the spec's description of the facility (spec sections 4.2, 4.3 and the
glossary).
-/

namespace SysInfo

/-- Constant from the source: `KSTAT_STRLEN`. -/
def KSTAT_STRLEN : Nat := 31

/-- Constant from the source: module string for CPU information groups. -/
def MODULE_CPU_INFO : String := "cpu_info"

/-- Constant from the source: statistic name for the CPU clock speed. -/
def STAT_CLOCK_MHZ : String := "clock_MHz"

/-- Constant from the source: module string for the unix module. -/
def MODULE_UNIX : String := "unix"

/-- Constant from the source: group name for miscellaneous system stats. -/
def NAME_SYSTEM_MISC : String := "system_misc"

/-- Constant from the source: statistic name for the boot time. -/
def STAT_BOOT_TIME : String := "boot_time"

/-- Constant from the source: statistic name for the process count. -/
def STAT_NPROC : String := "nproc"

/-- Constant from the source: group name for memory page statistics. -/
def NAME_SYSTEM_PAGES : String := "system_pages"

/-- Constant from the source: statistic name for free memory pages. -/
def STAT_FREEMEM : String := "freemem"

/-- Constant from the source: statistic name for physical memory pages. -/
def STAT_PHYSMEM : String := "physmem"

/-- Interpretation of the `KstatValue` union member `l` (`c_long`, a signed
64-bit word on LP64 Solaris): the low 64 bits of the stored pattern read as a
two's-complement signed integer. -/
def valL (bits : Nat) : Int :=
  if bits % 2 ^ 64 < 2 ^ 63 then ((bits % 2 ^ 64 : Nat) : Int)
  else ((bits % 2 ^ 64 : Nat) : Int) - 2 ^ 64

/-- Interpretation of the `KstatValue` union member `ul` (`c_ulong`, an
unsigned 64-bit word): the low 64 bits of the stored pattern. -/
def valUl (bits : Nat) : Nat := bits % 2 ^ 64

/-- Interpretation of the `KstatValue` union member `ui32` (`u32`): the low
32 bits of the stored pattern. -/
def valU32 (bits : Nat) : Nat := bits % 2 ^ 32

/-- A named kstat field (`KstatNamed` in the source): a statistic name, the
facility-assigned type tag (`data_type`, never inspected by this module), and
the raw bit pattern of the `KstatValue` union, interpreted by the typed
accessors below. -/
structure KstatNamed where
  name : String
  data_type : Nat
  value : Nat
deriving DecidableEq, Repr

/-- A kstat group (`Kstat` in the source): a node of the facility's chain.
Fields irrelevant to this module (`ks_crtime`, `ks_kid`, `ks_class`, sizes,
flags) are omitted; `ks_next` is represented by the list structure of the
chain. `readOk` models whether the facility's `kstat_read` succeeds on this
group, and `ks_data` the named fields its data snapshot holds after a read. -/
structure Kstat where
  ks_module : String
  ks_instance : Int
  ks_name : String
  readOk : Bool
  ks_data : List KstatNamed
deriving DecidableEq, Repr

/-- Modelled from the spec: the external statistics facility as seen by one
accessor call — whether `kstat_open` succeeds, and the chain of groups the
opened control structure exposes (`kc_chain`). -/
structure Host where
  openOk : Bool
  chain : List Kstat
deriving DecidableEq, Repr

/-- Modelled from the spec: the filter semantics of a nul-terminated C string
pointer argument — a null pointer (None) matches anything, a non-null pointer
matches by exact string equality. -/
def strFilter (filter : Option String) (s : String) : Bool :=
  match filter with
  | none => true
  | some f => f == s

/-- Modelled from the spec: `kstat_lookup(3KSTAT)` with the instance wildcard
(-1), as the source always passes. It returns a pointer to the first group in
the chain whose module and name match the (optional) filters — that is, the
suffix of the chain starting at that group — or null (the empty suffix) when
no group matches. -/
def kstat_lookup (chain : List Kstat) (module name : Option String) :
    List Kstat :=
  chain.dropWhile
    (fun k => !(strFilter module k.ks_module && strFilter name k.ks_name))

/-- Modelled from the spec: `kstat_read(3KSTAT)` refreshes the data snapshot
of one group and returns -1 on failure (a non-negative kstat chain id on
success, modelled as 0). -/
def kstat_read (k : Kstat) : Int :=
  if k.readOk then 0 else -1

/-- Modelled from the spec: `kstat_data_lookup(3KSTAT)` searches the current
data snapshot of a group for a field with the given name. -/
def kstat_data_lookup (k : Kstat) (name : String) : Option KstatNamed :=
  k.ks_data.find? (fun kn => kn.name == name)

/-- The `KstatWrapper` struct of the source: the opened control structure
(`kc`, holding the facility's chain), the cursor (`ksp`, a suffix of the
chain; `[]` models the null pointer), and the `stepping` flag. -/
structure KstatWrapper where
  kc : List Kstat
  ksp : List Kstat
  stepping : Bool
deriving DecidableEq, Repr

/-- `KstatWrapper::open`: calls `kstat_open(3KSTAT)`; on failure returns the
error, otherwise a wrapper with a null cursor and `stepping` false. -/
def KstatWrapper.open' (h : Host) : Except String KstatWrapper :=
  if h.openOk then
    Except.ok { kc := h.chain, ksp := [], stepping := false }
  else
    Except.error "kstat_open(3KSTAT) failed"

/-- `KstatWrapper::lookup`: calls `kstat_lookup(3KSTAT)` (instance -1) and
stores the result in `ksp`; resets `stepping`. -/
def KstatWrapper.lookup (w : KstatWrapper) (module name : Option String) :
    KstatWrapper :=
  { w with ksp := kstat_lookup w.kc module name, stepping := false }

/-- `KstatWrapper::step`: the first call after `lookup` only sets `stepping`;
every subsequent call advances `ksp` to `ks_next` (the tail of the suffix).
Returns false, resetting `stepping`, once `ksp` is null. -/
def KstatWrapper.step (w : KstatWrapper) : Bool × KstatWrapper :=
  let w1 :=
    if !w.stepping then { w with stepping := true }
    else { w with ksp := w.ksp.tail }
  if w1.ksp.isEmpty then (false, { w1 with stepping := false })
  else (true, w1)

/-- `KstatWrapper::module`: the module name of the current kstat, or None if
the cursor is null. -/
def KstatWrapper.module (w : KstatWrapper) : Option String :=
  match w.ksp with
  | [] => none
  | k :: _ => some k.ks_module

/-- `KstatWrapper::name`: the name of the current kstat, or None if the
cursor is null. -/
def KstatWrapper.name (w : KstatWrapper) : Option String :=
  match w.ksp with
  | [] => none
  | k :: _ => some k.ks_name

/-- The per-group core of `KstatWrapper::data_value`: refresh the group via
`kstat_read` (yield nothing on failure, -1) and look the field up via
`kstat_data_lookup` (yield nothing when absent). -/
def kField (k : Kstat) (statistic : String) : Option KstatNamed :=
  if kstat_read k == -1 then none
  else kstat_data_lookup k statistic

/-- `KstatWrapper::data_value`: yields nothing when the cursor is null, when
the data refresh fails, or when no field with the requested name exists;
otherwise the located field record. -/
def KstatWrapper.data_value (w : KstatWrapper) (statistic : String) :
    Option KstatNamed :=
  match w.ksp with
  | [] => none
  | k :: _ => kField k statistic

/-- `KstatWrapper::data_long`: `data_value` interpreted as a `long_t`. -/
def KstatWrapper.data_long (w : KstatWrapper) (statistic : String) :
    Option Int :=
  match w.data_value statistic with
  | some knp => some (valL knp.value)
  | none => none

/-- `KstatWrapper::data_ulong`: `data_value` interpreted as a `ulong_t`. -/
def KstatWrapper.data_ulong (w : KstatWrapper) (statistic : String) :
    Option Nat :=
  match w.data_value statistic with
  | some knp => some (valUl knp.value)
  | none => none

/-- `KstatWrapper::data_u32`: `data_value` interpreted as a `uint32_t`. -/
def KstatWrapper.data_u32 (w : KstatWrapper) (statistic : String) :
    Option Nat :=
  match w.data_value statistic with
  | some knp => some (valU32 knp.value)
  | none => none

/-- Termination measure for the `while k.step()` loops: the length of the
cursor suffix, plus one before the first step (which does not advance). -/
def wMeasure (w : KstatWrapper) : Nat :=
  w.ksp.length + (if w.stepping then 0 else 1)

/-- A step that returns true strictly decreases the loop measure. -/
theorem step_true_wMeasure {w w' : KstatWrapper}
    (h : w.step = (true, w')) : wMeasure w' < wMeasure w := by
  obtain ⟨kc, ksp, stepping⟩ := w
  cases stepping
  · cases ksp with
    | nil => simp [KstatWrapper.step] at h
    | cons k r =>
      simp only [KstatWrapper.step, Bool.not_false, if_true, List.isEmpty_cons,
        Bool.false_eq_true, if_false, Prod.mk.injEq, true_and] at h
      subst h
      simp [wMeasure]
  · cases ksp with
    | nil => simp [KstatWrapper.step] at h
    | cons k r =>
      cases r with
      | nil => simp [KstatWrapper.step] at h
      | cons k2 r2 =>
        simp only [KstatWrapper.step, Bool.not_true, Bool.false_eq_true,
          if_false, List.tail_cons, List.isEmpty_cons, Prod.mk.injEq,
          true_and] at h
        subst h
        simp [wMeasure]

/-- The result type of a public accessor: a value, a descriptive error, or a
panic (modelling an `unwrap()` of None; the theorems below show this case is
unreachable). -/
inductive KResult (α : Type) where
  | ok : α → KResult α
  | err : String → KResult α
  | panicked : KResult α
deriving DecidableEq, Repr

/-- The `while k.step()` loop of `cpu_mhz`: skip groups whose module is not
"cpu_info", return the first "clock_MHz" value (a `long_t`, cast to `u64` by
bit pattern), or the descriptive error once the chain is exhausted. -/
def cpuMhzGo (w : KstatWrapper) : KResult Nat :=
  match hstep : w.step with
  | (false, _) => KResult.err "cpu speed kstat not found"
  | (true, w') =>
    match w'.module with
    | none => KResult.panicked
    | some m =>
      if m ≠ MODULE_CPU_INFO then cpuMhzGo w'
      else
        match w'.data_long STAT_CLOCK_MHZ with
        | some mhz => KResult.ok ((mhz % (2 ^ 64 : Int)).toNat)
        | none => cpuMhzGo w'
termination_by wMeasure w
decreasing_by
  all_goals exact step_true_wMeasure hstep

/-- The `while k.step()` loop of `boot_time`: skip groups not matching
module "unix" / name "system_misc" (the `||` of the source short-circuits:
the name is only unwrapped when the module matched), return the first
"boot_time" value (a `uint32_t`, widened to `u64`). -/
def bootTimeGo (w : KstatWrapper) : KResult Nat :=
  match hstep : w.step with
  | (false, _) => KResult.err "boot time kstat not found"
  | (true, w') =>
    match w'.module with
    | none => KResult.panicked
    | some m =>
      if m ≠ MODULE_UNIX then bootTimeGo w'
      else
        match w'.name with
        | none => KResult.panicked
        | some n =>
          if n ≠ NAME_SYSTEM_MISC then bootTimeGo w'
          else
            match w'.data_u32 STAT_BOOT_TIME with
            | some bt => KResult.ok bt
            | none => bootTimeGo w'
termination_by wMeasure w
decreasing_by
  all_goals exact step_true_wMeasure hstep

/-- The `while k.step()` loop of `nproc`: same shape as `boot_time`, for the
"nproc" field of the "unix"/"system_misc" group. -/
def nprocGo (w : KstatWrapper) : KResult Nat :=
  match hstep : w.step with
  | (false, _) => KResult.err "process count kstat not found"
  | (true, w') =>
    match w'.module with
    | none => KResult.panicked
    | some m =>
      if m ≠ MODULE_UNIX then nprocGo w'
      else
        match w'.name with
        | none => KResult.panicked
        | some n =>
          if n ≠ NAME_SYSTEM_MISC then nprocGo w'
          else
            match w'.data_u32 STAT_NPROC with
            | some np => KResult.ok np
            | none => nprocGo w'
termination_by wMeasure w
decreasing_by
  all_goals exact step_true_wMeasure hstep

/-- The `Pages` result struct of the source. -/
structure Pages where
  freemem : Nat
  physmem : Nat
deriving DecidableEq, Repr

/-- The `while k.step()` loop of `pages`: skip groups not matching
"unix"/"system_pages"; on a match, extract "freemem" and "physmem" (both
`ulong_t`) and succeed only when both are present, otherwise keep walking. -/
def pagesGo (w : KstatWrapper) : KResult Pages :=
  match hstep : w.step with
  | (false, _) => KResult.err "system pages kstat not available"
  | (true, w') =>
    match w'.module with
    | none => KResult.panicked
    | some m =>
      if m ≠ MODULE_UNIX then pagesGo w'
      else
        match w'.name with
        | none => KResult.panicked
        | some n =>
          if n ≠ NAME_SYSTEM_PAGES then pagesGo w'
          else
            match w'.data_ulong STAT_FREEMEM, w'.data_ulong STAT_PHYSMEM with
            | some fm, some pm => KResult.ok { freemem := fm, physmem := pm }
            | _, _ => pagesGo w'
termination_by wMeasure w
decreasing_by
  all_goals exact step_true_wMeasure hstep

/-- `pub fn cpu_mhz()`: open, look up module "cpu_info" (any name), walk. -/
def cpu_mhz (h : Host) : KResult Nat :=
  match KstatWrapper.open' h with
  | Except.error e => KResult.err e
  | Except.ok k => cpuMhzGo (k.lookup (some MODULE_CPU_INFO) none)

/-- `pub fn boot_time()`: open, look up "unix"/"system_misc", walk. -/
def boot_time (h : Host) : KResult Nat :=
  match KstatWrapper.open' h with
  | Except.error e => KResult.err e
  | Except.ok k =>
    bootTimeGo (k.lookup (some MODULE_UNIX) (some NAME_SYSTEM_MISC))

/-- `pub fn nproc()`: open, look up "unix"/"system_misc", walk. -/
def nproc (h : Host) : KResult Nat :=
  match KstatWrapper.open' h with
  | Except.error e => KResult.err e
  | Except.ok k =>
    nprocGo (k.lookup (some MODULE_UNIX) (some NAME_SYSTEM_MISC))

/-- `pub fn pages()`: open, look up "unix"/"system_pages", walk. -/
def pages (h : Host) : KResult Pages :=
  match KstatWrapper.open' h with
  | Except.error e => KResult.err e
  | Except.ok k =>
    pagesGo (k.lookup (some MODULE_UNIX) (some NAME_SYSTEM_PAGES))

/-- Per-group view of `data_long`: `kField` interpreted as a `long_t`. -/
def kLong (k : Kstat) (statistic : String) : Option Int :=
  match kField k statistic with
  | some kn => some (valL kn.value)
  | none => none

/-- Per-group view of `data_ulong`: `kField` interpreted as a `ulong_t`. -/
def kUlong (k : Kstat) (statistic : String) : Option Nat :=
  match kField k statistic with
  | some kn => some (valUl kn.value)
  | none => none

/-- Per-group view of `data_u32`: `kField` interpreted as a `uint32_t`. -/
def kU32 (k : Kstat) (statistic : String) : Option Nat :=
  match kField k statistic with
  | some kn => some (valU32 kn.value)
  | none => none

theorem data_long_cons (kc : List Kstat) (k : Kstat) (rest : List Kstat)
    (b : Bool) (s : String) :
    KstatWrapper.data_long ⟨kc, k :: rest, b⟩ s = kLong k s := rfl

theorem data_ulong_cons (kc : List Kstat) (k : Kstat) (rest : List Kstat)
    (b : Bool) (s : String) :
    KstatWrapper.data_ulong ⟨kc, k :: rest, b⟩ s = kUlong k s := rfl

theorem data_u32_cons (kc : List Kstat) (k : Kstat) (rest : List Kstat)
    (b : Bool) (s : String) :
    KstatWrapper.data_u32 ⟨kc, k :: rest, b⟩ s = kU32 k s := rfl

theorem cpuMhzGo_eq (w : KstatWrapper) :
    cpuMhzGo w =
      match w.step with
      | (false, _) => KResult.err "cpu speed kstat not found"
      | (true, w') =>
        match w'.module with
        | none => KResult.panicked
        | some m =>
          if m ≠ MODULE_CPU_INFO then cpuMhzGo w'
          else
            match w'.data_long STAT_CLOCK_MHZ with
            | some mhz => KResult.ok ((mhz % (2 ^ 64 : Int)).toNat)
            | none => cpuMhzGo w' := by
  rw [cpuMhzGo]
  rcases hw : w.step with ⟨b, w'⟩
  cases b <;> rfl

/-- List view of the `cpu_mhz` loop, one group at a time. -/
def cpuMhzList : List Kstat → KResult Nat
  | [] => KResult.err "cpu speed kstat not found"
  | k :: rest =>
    if k.ks_module ≠ MODULE_CPU_INFO then cpuMhzList rest
    else
      match kLong k STAT_CLOCK_MHZ with
      | some mhz => KResult.ok ((mhz % (2 ^ 64 : Int)).toNat)
      | none => cpuMhzList rest

theorem cpuMhzGo_stepping (kc : List Kstat) :
    ∀ (l : List Kstat) (k : Kstat),
      cpuMhzGo ⟨kc, k :: l, true⟩ = cpuMhzList l := by
  intro l
  induction l with
  | nil =>
    intro k
    rw [cpuMhzGo_eq]
    simp [KstatWrapper.step, cpuMhzList]
  | cons k2 r ih =>
    intro k
    rw [cpuMhzGo_eq]
    simp only [KstatWrapper.step, Bool.not_true, Bool.false_eq_true, if_false,
      List.tail_cons, List.isEmpty_cons, KstatWrapper.module, cpuMhzList,
      data_long_cons, ih]

theorem cpuMhzGo_start (kc l : List Kstat) :
    cpuMhzGo ⟨kc, l, false⟩ = cpuMhzList l := by
  cases l with
  | nil =>
    rw [cpuMhzGo_eq]
    simp [KstatWrapper.step, cpuMhzList]
  | cons k r =>
    rw [cpuMhzGo_eq]
    simp only [KstatWrapper.step, Bool.not_false, if_true, List.isEmpty_cons,
      Bool.false_eq_true, if_false, KstatWrapper.module, cpuMhzList,
      data_long_cons, cpuMhzGo_stepping]

theorem bootTimeGo_eq (w : KstatWrapper) :
    bootTimeGo w =
      match w.step with
      | (false, _) => KResult.err "boot time kstat not found"
      | (true, w') =>
        match w'.module with
        | none => KResult.panicked
        | some m =>
          if m ≠ MODULE_UNIX then bootTimeGo w'
          else
            match w'.name with
            | none => KResult.panicked
            | some n =>
              if n ≠ NAME_SYSTEM_MISC then bootTimeGo w'
              else
                match w'.data_u32 STAT_BOOT_TIME with
                | some bt => KResult.ok bt
                | none => bootTimeGo w' := by
  rw [bootTimeGo]
  rcases hw : w.step with ⟨b, w'⟩
  cases b <;> rfl

/-- List view of the `boot_time` loop, one group at a time. -/
def bootTimeList : List Kstat → KResult Nat
  | [] => KResult.err "boot time kstat not found"
  | k :: rest =>
    if k.ks_module ≠ MODULE_UNIX then bootTimeList rest
    else if k.ks_name ≠ NAME_SYSTEM_MISC then bootTimeList rest
    else
      match kU32 k STAT_BOOT_TIME with
      | some bt => KResult.ok bt
      | none => bootTimeList rest

theorem bootTimeGo_stepping (kc : List Kstat) :
    ∀ (l : List Kstat) (k : Kstat),
      bootTimeGo ⟨kc, k :: l, true⟩ = bootTimeList l := by
  intro l
  induction l with
  | nil =>
    intro k
    rw [bootTimeGo_eq]
    simp [KstatWrapper.step, bootTimeList]
  | cons k2 r ih =>
    intro k
    rw [bootTimeGo_eq]
    simp only [KstatWrapper.step, Bool.not_true, Bool.false_eq_true, if_false,
      List.tail_cons, List.isEmpty_cons, KstatWrapper.module,
      KstatWrapper.name, bootTimeList, data_u32_cons, ih]

theorem bootTimeGo_start (kc l : List Kstat) :
    bootTimeGo ⟨kc, l, false⟩ = bootTimeList l := by
  cases l with
  | nil =>
    rw [bootTimeGo_eq]
    simp [KstatWrapper.step, bootTimeList]
  | cons k r =>
    rw [bootTimeGo_eq]
    simp only [KstatWrapper.step, Bool.not_false, if_true, List.isEmpty_cons,
      Bool.false_eq_true, if_false, KstatWrapper.module, KstatWrapper.name,
      bootTimeList, data_u32_cons, bootTimeGo_stepping]

theorem nprocGo_eq (w : KstatWrapper) :
    nprocGo w =
      match w.step with
      | (false, _) => KResult.err "process count kstat not found"
      | (true, w') =>
        match w'.module with
        | none => KResult.panicked
        | some m =>
          if m ≠ MODULE_UNIX then nprocGo w'
          else
            match w'.name with
            | none => KResult.panicked
            | some n =>
              if n ≠ NAME_SYSTEM_MISC then nprocGo w'
              else
                match w'.data_u32 STAT_NPROC with
                | some np => KResult.ok np
                | none => nprocGo w' := by
  rw [nprocGo]
  rcases hw : w.step with ⟨b, w'⟩
  cases b <;> rfl

/-- List view of the `nproc` loop, one group at a time. -/
def nprocList : List Kstat → KResult Nat
  | [] => KResult.err "process count kstat not found"
  | k :: rest =>
    if k.ks_module ≠ MODULE_UNIX then nprocList rest
    else if k.ks_name ≠ NAME_SYSTEM_MISC then nprocList rest
    else
      match kU32 k STAT_NPROC with
      | some np => KResult.ok np
      | none => nprocList rest

theorem nprocGo_stepping (kc : List Kstat) :
    ∀ (l : List Kstat) (k : Kstat),
      nprocGo ⟨kc, k :: l, true⟩ = nprocList l := by
  intro l
  induction l with
  | nil =>
    intro k
    rw [nprocGo_eq]
    simp [KstatWrapper.step, nprocList]
  | cons k2 r ih =>
    intro k
    rw [nprocGo_eq]
    simp only [KstatWrapper.step, Bool.not_true, Bool.false_eq_true, if_false,
      List.tail_cons, List.isEmpty_cons, KstatWrapper.module,
      KstatWrapper.name, nprocList, data_u32_cons, ih]

theorem nprocGo_start (kc l : List Kstat) :
    nprocGo ⟨kc, l, false⟩ = nprocList l := by
  cases l with
  | nil =>
    rw [nprocGo_eq]
    simp [KstatWrapper.step, nprocList]
  | cons k r =>
    rw [nprocGo_eq]
    simp only [KstatWrapper.step, Bool.not_false, if_true, List.isEmpty_cons,
      Bool.false_eq_true, if_false, KstatWrapper.module, KstatWrapper.name,
      nprocList, data_u32_cons, nprocGo_stepping]

theorem pagesGo_eq (w : KstatWrapper) :
    pagesGo w =
      match w.step with
      | (false, _) => KResult.err "system pages kstat not available"
      | (true, w') =>
        match w'.module with
        | none => KResult.panicked
        | some m =>
          if m ≠ MODULE_UNIX then pagesGo w'
          else
            match w'.name with
            | none => KResult.panicked
            | some n =>
              if n ≠ NAME_SYSTEM_PAGES then pagesGo w'
              else
                match w'.data_ulong STAT_FREEMEM,
                    w'.data_ulong STAT_PHYSMEM with
                | some fm, some pm =>
                  KResult.ok { freemem := fm, physmem := pm }
                | _, _ => pagesGo w' := by
  rw [pagesGo]
  rcases hw : w.step with ⟨b, w'⟩
  cases b <;> rfl

/-- List view of the `pages` loop, one group at a time. -/
def pagesList : List Kstat → KResult Pages
  | [] => KResult.err "system pages kstat not available"
  | k :: rest =>
    if k.ks_module ≠ MODULE_UNIX then pagesList rest
    else if k.ks_name ≠ NAME_SYSTEM_PAGES then pagesList rest
    else
      match kUlong k STAT_FREEMEM, kUlong k STAT_PHYSMEM with
      | some fm, some pm => KResult.ok { freemem := fm, physmem := pm }
      | _, _ => pagesList rest

theorem pagesGo_stepping (kc : List Kstat) :
    ∀ (l : List Kstat) (k : Kstat),
      pagesGo ⟨kc, k :: l, true⟩ = pagesList l := by
  intro l
  induction l with
  | nil =>
    intro k
    rw [pagesGo_eq]
    simp [KstatWrapper.step, pagesList]
  | cons k2 r ih =>
    intro k
    rw [pagesGo_eq]
    simp only [KstatWrapper.step, Bool.not_true, Bool.false_eq_true, if_false,
      List.tail_cons, List.isEmpty_cons, KstatWrapper.module,
      KstatWrapper.name, pagesList, data_ulong_cons, ih]

theorem pagesGo_start (kc l : List Kstat) :
    pagesGo ⟨kc, l, false⟩ = pagesList l := by
  cases l with
  | nil =>
    rw [pagesGo_eq]
    simp [KstatWrapper.step, pagesList]
  | cons k r =>
    rw [pagesGo_eq]
    simp only [KstatWrapper.step, Bool.not_false, if_true, List.isEmpty_cons,
      Bool.false_eq_true, if_false, KstatWrapper.module, KstatWrapper.name,
      pagesList, data_ulong_cons, pagesGo_stepping]

/-- The boolean result and wrapper state after the (n+1)-th of a sequence of
repeated `step` calls starting from `w`. -/
def stepSeq (w : KstatWrapper) : Nat → Bool × KstatWrapper
  | 0 => w.step
  | n + 1 => (stepSeq w n).2.step

/-- Characterization of repeated stepping from a fresh (not yet stepping)
cursor: the first `l.length` calls return true, positioned at successive
suffixes, and every later call returns false on the exhausted cursor. -/
theorem stepSeq_char (kc l : List Kstat) :
    ∀ n : Nat,
      (n < l.length →
        stepSeq ⟨kc, l, false⟩ n = (true, ⟨kc, l.drop n, true⟩)) ∧
      (l.length ≤ n →
        stepSeq ⟨kc, l, false⟩ n = (false, ⟨kc, [], false⟩)) := by
  intro n
  induction n with
  | zero =>
    constructor
    · intro hlt
      cases l with
      | nil => simp at hlt
      | cons k r => simp [stepSeq, KstatWrapper.step]
    · intro hle
      have : l = [] := by
        cases l with
        | nil => rfl
        | cons k r => simp at hle
      subst this
      simp [stepSeq, KstatWrapper.step]
  | succ n ih =>
    constructor
    · intro hlt
      have hn : n < l.length := Nat.lt_of_succ_lt hlt
      have hprev := ih.1 hn
      have hdrop : l.drop (n + 1) ≠ [] := by
        rw [Ne, List.drop_eq_nil_iff]
        omega
      simp only [stepSeq, hprev, KstatWrapper.step, Bool.not_true,
        Bool.false_eq_true, if_false, List.tail_drop]
      simp [List.isEmpty_iff, hdrop]
    · intro hle
      rcases Nat.lt_or_ge n l.length with hn | hn
      · have hlen : l.length = n + 1 := by omega
        have hprev := ih.1 hn
        have hdrop : l.drop (n + 1) = [] := by
          rw [List.drop_eq_nil_iff]
          omega
        simp only [stepSeq, hprev, KstatWrapper.step, Bool.not_true,
          Bool.false_eq_true, if_false, List.tail_drop]
        simp [List.isEmpty_iff, hdrop]
      · have hprev := ih.2 hn
        simp [stepSeq, hprev, KstatWrapper.step]

/-- Facility lifecycle events observable during one accessor call: the handle
was opened, the open call failed, the handle was closed
(`kstat_close` from the `Drop` impl). -/
inductive KEvent where
  | opened
  | closed
  | openFailed
deriving DecidableEq, Repr

/-- The common `while k.step()` loop of the four accessors, instrumented with
the facility lifecycle events of the enclosing Rust function: the loop body
returns Some on an early `return` (or panic) and None to keep walking, and
each exit point emits the `closed` event at which the `KstatWrapper` `Drop`
impl runs when the wrapper goes out of scope. -/
def loopT {α : Type} (body : KstatWrapper → Option (KResult α))
    (errMsg : String) (w : KstatWrapper) : KResult α × List KEvent :=
  match hstep : w.step with
  | (false, _) => (KResult.err errMsg, [KEvent.closed])
  | (true, w') =>
    match body w' with
    | some r => (r, [KEvent.closed])
    | none => loopT body errMsg w'
termination_by wMeasure w
decreasing_by
  all_goals exact step_true_wMeasure hstep

theorem loopT_eq {α : Type} (body : KstatWrapper → Option (KResult α))
    (errMsg : String) (w : KstatWrapper) :
    loopT body errMsg w =
      match w.step with
      | (false, _) => (KResult.err errMsg, [KEvent.closed])
      | (true, w') =>
        match body w' with
        | some r => (r, [KEvent.closed])
        | none => loopT body errMsg w' := by
  rw [loopT]
  rcases hw : w.step with ⟨b, w'⟩
  cases b <;> rfl

/-- Whatever path the accessor loop takes, its event trace is exactly one
`closed` event: the wrapper is dropped once, at scope exit. -/
theorem loopT_trace {α : Type} (body : KstatWrapper → Option (KResult α))
    (errMsg : String) (w : KstatWrapper) :
    (loopT body errMsg w).2 = [KEvent.closed] := by
  generalize hn : wMeasure w = n
  induction n using Nat.strong_induction_on generalizing w with
  | _ n ih =>
    subst hn
    rw [loopT_eq]
    rcases hw : w.step with ⟨b, w'⟩
    cases b
    · rfl
    · cases hb : body w' with
      | some r => simp [hb]
      | none =>
        simp only [hb]
        exact ih _ (step_true_wMeasure hw) w' rfl

/-- Traced `cpu_mhz`: the same control flow with its facility lifecycle
events. A failed open emits only `openFailed` (no handle exists); a
successful open emits `opened` and then whatever the loop's exit path
emits. -/
def cpu_mhzT (h : Host) : KResult Nat × List KEvent :=
  match KstatWrapper.open' h with
  | Except.error e => (KResult.err e, [KEvent.openFailed])
  | Except.ok k =>
    let p := loopT
      (fun w' =>
        match w'.module with
        | none => some KResult.panicked
        | some m =>
          if m ≠ MODULE_CPU_INFO then none
          else
            match w'.data_long STAT_CLOCK_MHZ with
            | some mhz => some (KResult.ok ((mhz % (2 ^ 64 : Int)).toNat))
            | none => none)
      "cpu speed kstat not found"
      (k.lookup (some MODULE_CPU_INFO) none)
    (p.1, KEvent.opened :: p.2)

/-- Traced `boot_time` (see `cpu_mhzT`). -/
def boot_timeT (h : Host) : KResult Nat × List KEvent :=
  match KstatWrapper.open' h with
  | Except.error e => (KResult.err e, [KEvent.openFailed])
  | Except.ok k =>
    let p := loopT
      (fun w' =>
        match w'.module with
        | none => some KResult.panicked
        | some m =>
          if m ≠ MODULE_UNIX then none
          else
            match w'.name with
            | none => some KResult.panicked
            | some n =>
              if n ≠ NAME_SYSTEM_MISC then none
              else
                match w'.data_u32 STAT_BOOT_TIME with
                | some bt => some (KResult.ok bt)
                | none => none)
      "boot time kstat not found"
      (k.lookup (some MODULE_UNIX) (some NAME_SYSTEM_MISC))
    (p.1, KEvent.opened :: p.2)

/-- Traced `nproc` (see `cpu_mhzT`). -/
def nprocT (h : Host) : KResult Nat × List KEvent :=
  match KstatWrapper.open' h with
  | Except.error e => (KResult.err e, [KEvent.openFailed])
  | Except.ok k =>
    let p := loopT
      (fun w' =>
        match w'.module with
        | none => some KResult.panicked
        | some m =>
          if m ≠ MODULE_UNIX then none
          else
            match w'.name with
            | none => some KResult.panicked
            | some n =>
              if n ≠ NAME_SYSTEM_MISC then none
              else
                match w'.data_u32 STAT_NPROC with
                | some np => some (KResult.ok np)
                | none => none)
      "process count kstat not found"
      (k.lookup (some MODULE_UNIX) (some NAME_SYSTEM_MISC))
    (p.1, KEvent.opened :: p.2)

/-- Traced `pages` (see `cpu_mhzT`). -/
def pagesT (h : Host) : KResult Pages × List KEvent :=
  match KstatWrapper.open' h with
  | Except.error e => (KResult.err e, [KEvent.openFailed])
  | Except.ok k =>
    let p := loopT
      (fun w' =>
        match w'.module with
        | none => some KResult.panicked
        | some m =>
          if m ≠ MODULE_UNIX then none
          else
            match w'.name with
            | none => some KResult.panicked
            | some n =>
              if n ≠ NAME_SYSTEM_PAGES then none
              else
                match w'.data_ulong STAT_FREEMEM,
                    w'.data_ulong STAT_PHYSMEM with
                | some fm, some pm =>
                  some (KResult.ok { freemem := fm, physmem := pm })
                | _, _ => none)
      "system pages kstat not available"
      (k.lookup (some MODULE_UNIX) (some NAME_SYSTEM_PAGES))
    (p.1, KEvent.opened :: p.2)

theorem cpu_mhz_open (h : Host) (hop : h.openOk = true) :
    cpu_mhz h = cpuMhzList (kstat_lookup h.chain (some MODULE_CPU_INFO) none)
    := by
  simp only [cpu_mhz, KstatWrapper.open', hop, if_true, KstatWrapper.lookup]
  exact cpuMhzGo_start _ _

theorem boot_time_open (h : Host) (hop : h.openOk = true) :
    boot_time h =
      bootTimeList
        (kstat_lookup h.chain (some MODULE_UNIX) (some NAME_SYSTEM_MISC))
    := by
  simp only [boot_time, KstatWrapper.open', hop, if_true, KstatWrapper.lookup]
  exact bootTimeGo_start _ _

theorem nproc_open (h : Host) (hop : h.openOk = true) :
    nproc h =
      nprocList
        (kstat_lookup h.chain (some MODULE_UNIX) (some NAME_SYSTEM_MISC))
    := by
  simp only [nproc, KstatWrapper.open', hop, if_true, KstatWrapper.lookup]
  exact nprocGo_start _ _

theorem pages_open (h : Host) (hop : h.openOk = true) :
    pages h =
      pagesList
        (kstat_lookup h.chain (some MODULE_UNIX) (some NAME_SYSTEM_PAGES))
    := by
  simp only [pages, KstatWrapper.open', hop, if_true, KstatWrapper.lookup]
  exact pagesGo_start _ _

/-- A step that returns true leaves the cursor on a group (non-null). -/
theorem step_true_ksp {w w' : KstatWrapper}
    (h : w.step = (true, w')) : w'.ksp ≠ [] := by
  obtain ⟨kc, ksp, stepping⟩ := w
  cases stepping
  · cases ksp with
    | nil => simp [KstatWrapper.step] at h
    | cons k r =>
      simp only [KstatWrapper.step, Bool.not_false, if_true, List.isEmpty_cons,
        Bool.false_eq_true, if_false, Prod.mk.injEq, true_and] at h
      subst h
      simp
  · cases ksp with
    | nil => simp [KstatWrapper.step] at h
    | cons k r =>
      cases r with
      | nil => simp [KstatWrapper.step] at h
      | cons k2 r2 =>
        simp only [KstatWrapper.step, Bool.not_true, Bool.false_eq_true,
          if_false, List.tail_cons, List.isEmpty_cons, Prod.mk.injEq,
          true_and] at h
        subst h
        simp

/-- A successful `pages` walk exhibits one group holding both fields. -/
theorem pagesList_ok {l : List Kstat} {p : Pages}
    (h : pagesList l = KResult.ok p) :
    ∃ k ∈ l, k.ks_module = MODULE_UNIX ∧ k.ks_name = NAME_SYSTEM_PAGES ∧
      kUlong k STAT_FREEMEM = some p.freemem ∧
      kUlong k STAT_PHYSMEM = some p.physmem := by
  induction l with
  | nil => simp [pagesList] at h
  | cons k rest ih =>
    simp only [pagesList] at h
    split at h
    · obtain ⟨k', hk', hp⟩ := ih h
      exact ⟨k', List.mem_cons_of_mem _ hk', hp⟩
    · split at h
      · obtain ⟨k', hk', hp⟩ := ih h
        exact ⟨k', List.mem_cons_of_mem _ hk', hp⟩
      · next h1 h2 =>
        push_neg at h1 h2
        split at h
        · next fm pm hfm hpm =>
          obtain rfl : Pages.mk fm pm = p := by
            injection h
          exact ⟨k, List.mem_cons_self k rest, h1, h2, hfm, hpm⟩
        · obtain ⟨k', hk', hp⟩ := ih h
          exact ⟨k', List.mem_cons_of_mem _ hk', hp⟩

/-- Exhaustion of the `cpu_mhz` walk: no matching group yields the field. -/
theorem cpuMhzList_err {l : List Kstat}
    (h : ∀ k ∈ l, k.ks_module = MODULE_CPU_INFO →
      kLong k STAT_CLOCK_MHZ = none) :
    cpuMhzList l = KResult.err "cpu speed kstat not found" := by
  induction l with
  | nil => rfl
  | cons k rest ih =>
    have hrest := fun k' hk' => h k' (List.mem_cons_of_mem _ hk')
    simp only [cpuMhzList]
    by_cases h1 : k.ks_module ≠ MODULE_CPU_INFO
    · rw [if_pos h1]
      exact ih hrest
    · rw [if_neg h1]
      push_neg at h1
      rw [h k (List.mem_cons_self k rest) h1]
      exact ih hrest

/-- Exhaustion of the `boot_time` walk. -/
theorem bootTimeList_err {l : List Kstat}
    (h : ∀ k ∈ l, k.ks_module = MODULE_UNIX → k.ks_name = NAME_SYSTEM_MISC →
      kU32 k STAT_BOOT_TIME = none) :
    bootTimeList l = KResult.err "boot time kstat not found" := by
  induction l with
  | nil => rfl
  | cons k rest ih =>
    have hrest := fun k' hk' => h k' (List.mem_cons_of_mem _ hk')
    simp only [bootTimeList]
    by_cases h1 : k.ks_module ≠ MODULE_UNIX
    · rw [if_pos h1]
      exact ih hrest
    · rw [if_neg h1]
      push_neg at h1
      by_cases h2 : k.ks_name ≠ NAME_SYSTEM_MISC
      · rw [if_pos h2]
        exact ih hrest
      · rw [if_neg h2]
        push_neg at h2
        rw [h k (List.mem_cons_self k rest) h1 h2]
        exact ih hrest

/-- Exhaustion of the `nproc` walk. -/
theorem nprocList_err {l : List Kstat}
    (h : ∀ k ∈ l, k.ks_module = MODULE_UNIX → k.ks_name = NAME_SYSTEM_MISC →
      kU32 k STAT_NPROC = none) :
    nprocList l = KResult.err "process count kstat not found" := by
  induction l with
  | nil => rfl
  | cons k rest ih =>
    have hrest := fun k' hk' => h k' (List.mem_cons_of_mem _ hk')
    simp only [nprocList]
    by_cases h1 : k.ks_module ≠ MODULE_UNIX
    · rw [if_pos h1]
      exact ih hrest
    · rw [if_neg h1]
      push_neg at h1
      by_cases h2 : k.ks_name ≠ NAME_SYSTEM_MISC
      · rw [if_pos h2]
        exact ih hrest
      · rw [if_neg h2]
        push_neg at h2
        rw [h k (List.mem_cons_self k rest) h1 h2]
        exact ih hrest

/-- Exhaustion of the `pages` walk: every matching group lacks a field. -/
theorem pagesList_err {l : List Kstat}
    (h : ∀ k ∈ l, k.ks_module = MODULE_UNIX → k.ks_name = NAME_SYSTEM_PAGES →
      kUlong k STAT_FREEMEM = none ∨ kUlong k STAT_PHYSMEM = none) :
    pagesList l = KResult.err "system pages kstat not available" := by
  induction l with
  | nil => rfl
  | cons k rest ih =>
    have hrest := fun k' hk' => h k' (List.mem_cons_of_mem _ hk')
    simp only [pagesList]
    by_cases h1 : k.ks_module ≠ MODULE_UNIX
    · rw [if_pos h1]
      exact ih hrest
    · rw [if_neg h1]
      push_neg at h1
      by_cases h2 : k.ks_name ≠ NAME_SYSTEM_PAGES
      · rw [if_pos h2]
        exact ih hrest
      · rw [if_neg h2]
        push_neg at h2
        rcases h k (List.mem_cons_self k rest) h1 h2 with hf | hp
        · rw [hf]
          exact ih hrest
        · rw [hp]
          cases kUlong k STAT_FREEMEM <;> exact ih hrest

theorem cpuMhzList_ne_panicked (l : List Kstat) :
    cpuMhzList l ≠ KResult.panicked := by
  induction l with
  | nil => simp [cpuMhzList]
  | cons k rest ih =>
    simp only [cpuMhzList]
    split
    · exact ih
    · split
      · simp
      · exact ih

theorem bootTimeList_ne_panicked (l : List Kstat) :
    bootTimeList l ≠ KResult.panicked := by
  induction l with
  | nil => simp [bootTimeList]
  | cons k rest ih =>
    simp only [bootTimeList]
    split
    · exact ih
    · split
      · exact ih
      · split
        · simp
        · exact ih

theorem nprocList_ne_panicked (l : List Kstat) :
    nprocList l ≠ KResult.panicked := by
  induction l with
  | nil => simp [nprocList]
  | cons k rest ih =>
    simp only [nprocList]
    split
    · exact ih
    · split
      · exact ih
      · split
        · simp
        · exact ih

theorem pagesList_ne_panicked (l : List Kstat) :
    pagesList l ≠ KResult.panicked := by
  induction l with
  | nil => simp [pagesList]
  | cons k rest ih =>
    simp only [pagesList]
    split
    · exact ih
    · split
      · exact ih
      · split
        · simp
        · exact ih

/-- Example group: "unix"/"system_misc" carrying a boot_time field but no
nproc field. -/
def kMiscNoNproc : Kstat :=
  { ks_module := "unix", ks_instance := 0, ks_name := "system_misc",
    readOk := true,
    ks_data := [{ name := "boot_time", data_type := 1,
                  value := 1700000000 }] }

/-- Example group: CPU instance 0 reporting clock_MHz = 2400. -/
def kCpuInfo0 : Kstat :=
  { ks_module := "cpu_info", ks_instance := 0, ks_name := "cpu_info0",
    readOk := true,
    ks_data := [{ name := "clock_MHz", data_type := 3, value := 2400 }] }

/-- Example group: CPU instance 1 reporting clock_MHz = 2400. -/
def kCpuInfo1 : Kstat :=
  { ks_module := "cpu_info", ks_instance := 1, ks_name := "cpu_info1",
    readOk := true,
    ks_data := [{ name := "clock_MHz", data_type := 3, value := 2400 }] }

/-- Example group: a CPU group whose data refresh (kstat_read) fails. -/
def kCpuUnreadable : Kstat :=
  { ks_module := "cpu_info", ks_instance := 2, ks_name := "cpu_info2",
    readOk := false,
    ks_data := [{ name := "clock_MHz", data_type := 3, value := 2400 }] }

/-- Example group: module differs from "cpu_info" in a single character. -/
def kCpuTypo : Kstat :=
  { ks_module := "cpu_infa", ks_instance := 0, ks_name := "cpu_info0",
    readOk := true,
    ks_data := [{ name := "clock_MHz", data_type := 3, value := 9999 }] }

/-- Example group: "cpu_info" whose clock_MHz field holds the 64-bit two's
complement pattern of the signed value v. -/
def kCpuNeg (v : Int) : Kstat :=
  { ks_module := "cpu_info", ks_instance := 0, ks_name := "cpu_info0",
    readOk := true,
    ks_data := [{ name := "clock_MHz", data_type := 3,
                  value := (v % (2 ^ 64 : Int)).toNat }] }

/-- C1: `pages()` never returns a partial result: a success carries both
"freemem" and "physmem" extracted from one matching "unix"/"system_pages"
group of the chain, and when either field is missing from every matching
group the call returns the "system pages kstat not available" error — never
a value with only one of the two populated. -/
theorem pages_both_or_neither (h : Host) (p : Pages) :
    (pages h = KResult.ok p →
      ∃ k ∈ h.chain, k.ks_module = MODULE_UNIX ∧
        k.ks_name = NAME_SYSTEM_PAGES ∧
        kUlong k STAT_FREEMEM = some p.freemem ∧
        kUlong k STAT_PHYSMEM = some p.physmem) ∧
    (h.openOk = true →
      (∀ k ∈ h.chain, k.ks_module = MODULE_UNIX →
        k.ks_name = NAME_SYSTEM_PAGES →
        kUlong k STAT_FREEMEM = none ∨ kUlong k STAT_PHYSMEM = none) →
      pages h = KResult.err "system pages kstat not available") := by
  have hsub :
      kstat_lookup h.chain (some MODULE_UNIX) (some NAME_SYSTEM_PAGES) ⊆
        h.chain := by
    simp only [kstat_lookup]
    exact (List.dropWhile_suffix _).subset
  constructor
  · intro hok
    rcases hO : h.openOk with _ | _
    · rw [pages] at hok
      simp [KstatWrapper.open', hO] at hok
    · rw [pages_open h hO] at hok
      obtain ⟨k, hk, hp⟩ := pagesList_ok hok
      exact ⟨k, hsub hk, hp⟩
  · intro hO hmiss
    rw [pages_open h hO]
    exact pagesList_err (fun k hk => hmiss k (hsub hk))

theorem pages_both_or_neither_witness :
    pages ⟨true, [kMiscNoNproc]⟩ =
      KResult.err "system pages kstat not available" :=
  (pages_both_or_neither ⟨true, [kMiscNoNproc]⟩ ⟨0, 0⟩).2 rfl (by decide)

/-- C2: when the chain walk completes without any matching group yielding
the required field(s), each public accessor returns its statistic-specific
error; in particular `nproc()` on a host whose "system_misc" group lacks an
"nproc" field returns "process count kstat not found" (witness below). -/
theorem accessors_not_found_errors (h : Host) (hO : h.openOk = true) :
    ((∀ k ∈ h.chain, k.ks_module = MODULE_CPU_INFO →
        kLong k STAT_CLOCK_MHZ = none) →
      cpu_mhz h = KResult.err "cpu speed kstat not found") ∧
    ((∀ k ∈ h.chain, k.ks_module = MODULE_UNIX →
        k.ks_name = NAME_SYSTEM_MISC → kU32 k STAT_BOOT_TIME = none) →
      boot_time h = KResult.err "boot time kstat not found") ∧
    ((∀ k ∈ h.chain, k.ks_module = MODULE_UNIX →
        k.ks_name = NAME_SYSTEM_MISC → kU32 k STAT_NPROC = none) →
      nproc h = KResult.err "process count kstat not found") ∧
    ((∀ k ∈ h.chain, k.ks_module = MODULE_UNIX →
        k.ks_name = NAME_SYSTEM_PAGES →
        kUlong k STAT_FREEMEM = none ∨ kUlong k STAT_PHYSMEM = none) →
      pages h = KResult.err "system pages kstat not available") := by
  refine ⟨fun hm => ?_, fun hm => ?_, fun hm => ?_, fun hm => ?_⟩
  · rw [cpu_mhz_open h hO]
    refine cpuMhzList_err (fun k hk => hm k ?_)
    revert hk
    simp only [kstat_lookup]
    exact fun hk => (List.dropWhile_suffix _).subset hk
  · rw [boot_time_open h hO]
    refine bootTimeList_err (fun k hk => hm k ?_)
    revert hk
    simp only [kstat_lookup]
    exact fun hk => (List.dropWhile_suffix _).subset hk
  · rw [nproc_open h hO]
    refine nprocList_err (fun k hk => hm k ?_)
    revert hk
    simp only [kstat_lookup]
    exact fun hk => (List.dropWhile_suffix _).subset hk
  · rw [pages_open h hO]
    refine pagesList_err (fun k hk => hm k ?_)
    revert hk
    simp only [kstat_lookup]
    exact fun hk => (List.dropWhile_suffix _).subset hk

theorem accessors_not_found_errors_witness :
    nproc ⟨true, [kMiscNoNproc]⟩ =
      KResult.err "process count kstat not found" :=
  (accessors_not_found_errors ⟨true, [kMiscNoNproc]⟩ rfl).2.2.1 (by decide)

/-- C3: cursor semantics of `step`: the first call after `lookup` (stepping
not yet started) does not advance the cursor, marks iteration as started
when a group is positioned, and returns whether one is; every subsequent
call advances the cursor to the next chain node; a call returning false
leaves a null cursor and resets the stepping flag. -/
theorem step_cursor_semantics (w : KstatWrapper) :
    (w.stepping = false →
      (w.step).2.ksp = w.ksp ∧
      ((w.step).1 = true ↔ w.ksp ≠ []) ∧
      (w.ksp ≠ [] → (w.step).2.stepping = true)) ∧
    (w.stepping = true →
      (w.step).2.ksp = w.ksp.tail ∧
      ((w.step).1 = true ↔ w.ksp.tail ≠ [])) ∧
    ((w.step).1 = false →
      (w.step).2.stepping = false ∧ (w.step).2.ksp = []) := by
  obtain ⟨kc, ksp, stepping⟩ := w
  cases stepping <;> rcases ksp with _ | ⟨k, _ | ⟨k2, r2⟩⟩ <;>
    simp [KstatWrapper.step]

theorem step_cursor_semantics_witness :
    ((⟨[], [kMiscNoNproc], false⟩ : KstatWrapper).step).1 = true := by
  have h := (step_cursor_semantics ⟨[], [kMiscNoNproc], false⟩).1 rfl
  exact h.2.1.mpr (by decide)

theorem kLong_none (k : Kstat) (s : String) :
    kLong k s = none ↔ kField k s = none := by
  unfold kLong
  cases kField k s <;> simp

theorem kUlong_none (k : Kstat) (s : String) :
    kUlong k s = none ↔ kField k s = none := by
  unfold kUlong
  cases kField k s <;> simp

theorem kU32_none (k : Kstat) (s : String) :
    kU32 k s = none ↔ kField k s = none := by
  unfold kU32
  cases kField k s <;> simp

/-- C4: `data_value` and the typed accessors built on it yield nothing in
exactly three cases — null cursor, failed data refresh (`kstat_read` = -1),
or absent field — and each accessor loop reacts to an extraction that
yields nothing on the positioned group identically: the group is skipped and
iteration continues with the next group. -/
theorem data_value_absence_cases :
    (∀ (w : KstatWrapper) (s : String),
      (w.data_value s = none ↔
        (w.ksp = [] ∨ ∃ k rest, w.ksp = k :: rest ∧
          (kstat_read k = -1 ∨ kstat_data_lookup k s = none))) ∧
      (w.data_long s = none ↔ w.data_value s = none) ∧
      (w.data_ulong s = none ↔ w.data_value s = none) ∧
      (w.data_u32 s = none ↔ w.data_value s = none)) ∧
    (∀ (w w' : KstatWrapper) (k : Kstat) (rest : List Kstat),
      w.step = (true, w') → w'.ksp = k :: rest →
      (k.ks_module = MODULE_CPU_INFO →
        w'.data_long STAT_CLOCK_MHZ = none → cpuMhzGo w = cpuMhzGo w') ∧
      (k.ks_module = MODULE_UNIX → k.ks_name = NAME_SYSTEM_MISC →
        w'.data_u32 STAT_BOOT_TIME = none → bootTimeGo w = bootTimeGo w') ∧
      (k.ks_module = MODULE_UNIX → k.ks_name = NAME_SYSTEM_MISC →
        w'.data_u32 STAT_NPROC = none → nprocGo w = nprocGo w') ∧
      (k.ks_module = MODULE_UNIX → k.ks_name = NAME_SYSTEM_PAGES →
        (w'.data_ulong STAT_FREEMEM = none ∨
          w'.data_ulong STAT_PHYSMEM = none) →
        pagesGo w = pagesGo w')) := by
  constructor
  · intro w s
    obtain ⟨kc, ksp, st⟩ := w
    cases ksp with
    | nil =>
      simp [KstatWrapper.data_value, KstatWrapper.data_long,
        KstatWrapper.data_ulong, KstatWrapper.data_u32]
    | cons k rest =>
      have hk : kField k s = none ↔
          (kstat_read k = -1 ∨ kstat_data_lookup k s = none) := by
        unfold kField kstat_read
        cases k.readOk <;> simp
      refine ⟨?_, ?_, ?_, ?_⟩
      · show kField k s = none ↔ _
        rw [hk]
        simp [List.cons.injEq]
      · exact (data_long_cons kc k rest st s).symm ▸ kLong_none k s
      · exact (data_ulong_cons kc k rest st s).symm ▸ kUlong_none k s
      · exact (data_u32_cons kc k rest st s).symm ▸ kU32_none k s
  · intro w w' k rest hstep hksp
    refine ⟨fun hmod hnone => ?_, fun hmod hname hnone => ?_,
      fun hmod hname hnone => ?_, fun hmod hname hnone => ?_⟩
    · rw [cpuMhzGo_eq, hstep]
      simp [KstatWrapper.module, hksp, hmod, hnone]
    · rw [bootTimeGo_eq, hstep]
      simp [KstatWrapper.module, KstatWrapper.name, hksp, hmod, hname, hnone]
    · rw [nprocGo_eq, hstep]
      simp [KstatWrapper.module, KstatWrapper.name, hksp, hmod, hname, hnone]
    · rw [pagesGo_eq, hstep]
      rcases hnone with hf | hp
      · simp [KstatWrapper.module, KstatWrapper.name, hksp, hmod, hname, hf]
      · rcases hfm : w'.data_ulong STAT_FREEMEM with _ | fm <;>
          simp [KstatWrapper.module, KstatWrapper.name, hksp, hmod, hname,
            hfm, hp]

theorem data_value_absence_cases_witness :
    cpuMhzGo ⟨[], [kCpuUnreadable, kCpuInfo0], false⟩ =
      cpuMhzGo ⟨[], [kCpuUnreadable, kCpuInfo0], true⟩ :=
  (data_value_absence_cases.2 ⟨[], [kCpuUnreadable, kCpuInfo0], false⟩
    ⟨[], [kCpuUnreadable, kCpuInfo0], true⟩ kCpuUnreadable [kCpuInfo0]
    (by decide) rfl).1 rfl (by decide)

/-- C5: every accessor re-verifies the module string (and, where applicable,
the name string) of each group visited by `step` against the expected
constant by exact string equality, and skips any group that differs. -/
theorem exact_match_required (w w' : KstatWrapper) (k : Kstat)
    (rest : List Kstat) (hstep : w.step = (true, w'))
    (hksp : w'.ksp = k :: rest) :
    (k.ks_module ≠ MODULE_CPU_INFO → cpuMhzGo w = cpuMhzGo w') ∧
    (k.ks_module ≠ MODULE_UNIX ∨ k.ks_name ≠ NAME_SYSTEM_MISC →
      bootTimeGo w = bootTimeGo w') ∧
    (k.ks_module ≠ MODULE_UNIX ∨ k.ks_name ≠ NAME_SYSTEM_MISC →
      nprocGo w = nprocGo w') ∧
    (k.ks_module ≠ MODULE_UNIX ∨ k.ks_name ≠ NAME_SYSTEM_PAGES →
      pagesGo w = pagesGo w') := by
  refine ⟨fun hmod => ?_, fun hmn => ?_, fun hmn => ?_, fun hmn => ?_⟩
  · rw [cpuMhzGo_eq, hstep]
    simp [KstatWrapper.module, hksp, hmod]
  · rw [bootTimeGo_eq, hstep]
    rcases hmn with hmod | hname
    · simp [KstatWrapper.module, hksp, hmod]
    · by_cases hmod : k.ks_module = MODULE_UNIX <;>
        simp [KstatWrapper.module, KstatWrapper.name, hksp, hmod, hname]
  · rw [nprocGo_eq, hstep]
    rcases hmn with hmod | hname
    · simp [KstatWrapper.module, hksp, hmod]
    · by_cases hmod : k.ks_module = MODULE_UNIX <;>
        simp [KstatWrapper.module, KstatWrapper.name, hksp, hmod, hname]
  · rw [pagesGo_eq, hstep]
    rcases hmn with hmod | hname
    · simp [KstatWrapper.module, hksp, hmod]
    · by_cases hmod : k.ks_module = MODULE_UNIX <;>
        simp [KstatWrapper.module, KstatWrapper.name, hksp, hmod, hname]

theorem exact_match_required_witness :
    cpuMhzGo ⟨[], [kCpuTypo, kCpuInfo0], false⟩ =
      cpuMhzGo ⟨[], [kCpuTypo, kCpuInfo0], true⟩ :=
  (exact_match_required ⟨[], [kCpuTypo, kCpuInfo0], false⟩
    ⟨[], [kCpuTypo, kCpuInfo0], true⟩ kCpuTypo [kCpuInfo0]
    (by decide) rfl).1 (by decide)

/-- C6: `cpu_mhz` returns the clock speed of the first "cpu_info" group that
yields "clock_MHz" without examining later CPU instances: with instance 0
(2400) first in the chain the result is Ok 2400 whatever follows — in
particular on the chain holding instances 0 and 1 both at 2400. -/
theorem cpu_mhz_first_instance :
    cpu_mhz ⟨true, [kCpuInfo0, kCpuInfo1]⟩ = KResult.ok 2400 ∧
    ∀ rest : List Kstat,
      cpu_mhz ⟨true, kCpuInfo0 :: rest⟩ = KResult.ok 2400 := by
  have hgen : ∀ rest : List Kstat,
      cpu_mhz ⟨true, kCpuInfo0 :: rest⟩ = KResult.ok 2400 := by
    intro rest
    rw [cpu_mhz_open _ rfl]
    have hlk : kstat_lookup (kCpuInfo0 :: rest) (some MODULE_CPU_INFO) none =
        kCpuInfo0 :: rest := by
      simp only [kstat_lookup, List.dropWhile_cons]
      norm_num [strFilter, kCpuInfo0, MODULE_CPU_INFO]
    have hk : kLong kCpuInfo0 STAT_CLOCK_MHZ = some 2400 := by decide
    show cpuMhzList
      (kstat_lookup (kCpuInfo0 :: rest) (some MODULE_CPU_INFO) none) = _
    rw [hlk]
    simp only [cpuMhzList, hk]
    norm_num [kCpuInfo0, MODULE_CPU_INFO]
    decide
  exact ⟨hgen [kCpuInfo1], hgen⟩

/-- C7: chain walking terminates: after any `lookup`, exactly the first
`ksp.length` repeated `step` calls return true, every later call returns
false, and that count is bounded by the number of groups in the chain. -/
theorem step_terminates (w : KstatWrapper) (module name : Option String) :
    (∀ n, n < (w.lookup module name).ksp.length →
      (stepSeq (w.lookup module name) n).1 = true) ∧
    (∀ n, (w.lookup module name).ksp.length ≤ n →
      (stepSeq (w.lookup module name) n).1 = false) ∧
    (w.lookup module name).ksp.length ≤ w.kc.length := by
  refine ⟨?_, ?_, ?_⟩
  · intro n hn
    have h := (stepSeq_char w.kc (kstat_lookup w.kc module name) n).1 hn
    show (stepSeq ⟨w.kc, kstat_lookup w.kc module name, false⟩ n).1 = true
    rw [h]
  · intro n hn
    have h := (stepSeq_char w.kc (kstat_lookup w.kc module name) n).2 hn
    show (stepSeq ⟨w.kc, kstat_lookup w.kc module name, false⟩ n).1 = false
    rw [h]
  · show (kstat_lookup w.kc module name).length ≤ w.kc.length
    simp only [kstat_lookup]
    exact (List.dropWhile_suffix _).sublist.length_le

theorem step_terminates_witness :
    (stepSeq ((⟨[kMiscNoNproc], [], false⟩ : KstatWrapper).lookup
      (some "unix") none) 0).1 = true :=
  (step_terminates ⟨[kMiscNoNproc], [], false⟩ (some "unix") none).1 0
    (by decide)

/-- C8: in every public accessor call, a successfully opened facility handle
is closed exactly once on every exit path (success, not-found error, or
panic-equivalent); when the open itself fails no close occurs, as no handle
exists. -/
theorem close_exactly_once (h : Host) :
    (h.openOk = true →
      (cpu_mhzT h).2.count KEvent.closed = 1 ∧
      (boot_timeT h).2.count KEvent.closed = 1 ∧
      (nprocT h).2.count KEvent.closed = 1 ∧
      (pagesT h).2.count KEvent.closed = 1) ∧
    (h.openOk = false →
      (cpu_mhzT h).2.count KEvent.closed = 0 ∧
      (boot_timeT h).2.count KEvent.closed = 0 ∧
      (nprocT h).2.count KEvent.closed = 0 ∧
      (pagesT h).2.count KEvent.closed = 0) := by
  constructor
  · intro hO
    refine ⟨?_, ?_, ?_, ?_⟩ <;>
      simp [cpu_mhzT, boot_timeT, nprocT, pagesT, KstatWrapper.open', hO,
        loopT_trace]
  · intro hO
    refine ⟨?_, ?_, ?_, ?_⟩ <;>
      simp [cpu_mhzT, boot_timeT, nprocT, pagesT, KstatWrapper.open', hO]

theorem close_exactly_once_witness :
    (cpu_mhzT ⟨true, [kMiscNoNproc]⟩).2.count KEvent.closed = 1 ∧
    (cpu_mhzT ⟨false, []⟩).2.count KEvent.closed = 0 :=
  ⟨((close_exactly_once ⟨true, [kMiscNoNproc]⟩).1 rfl).1,
   ((close_exactly_once ⟨false, []⟩).2 rfl).1⟩

/-- C9: `module` and `name` return the positioned group's identifying
strings exactly when the cursor is non-null; whenever `step` has just
returned true both are present, so the `unwrap()` calls inside the four
accessor loops can never panic. -/
theorem module_name_unwrap_safe :
    (∀ w : KstatWrapper,
      ((w.module).isSome ↔ w.ksp ≠ []) ∧ ((w.name).isSome ↔ w.ksp ≠ [])) ∧
    (∀ w w' : KstatWrapper, w.step = (true, w') →
      (w'.module).isSome ∧ (w'.name).isSome) ∧
    (∀ h : Host,
      cpu_mhz h ≠ KResult.panicked ∧ boot_time h ≠ KResult.panicked ∧
      nproc h ≠ KResult.panicked ∧ pages h ≠ KResult.panicked) := by
  have hmod : ∀ w : KstatWrapper, (w.module).isSome ↔ w.ksp ≠ [] := by
    intro w
    obtain ⟨kc, ksp, st⟩ := w
    cases ksp <;> simp [KstatWrapper.module]
  have hname : ∀ w : KstatWrapper, (w.name).isSome ↔ w.ksp ≠ [] := by
    intro w
    obtain ⟨kc, ksp, st⟩ := w
    cases ksp <;> simp [KstatWrapper.name]
  refine ⟨fun w => ⟨hmod w, hname w⟩, fun w w' hstep => ?_, fun h => ?_⟩
  · have hne := step_true_ksp hstep
    exact ⟨(hmod w').mpr hne, (hname w').mpr hne⟩
  · rcases hO : h.openOk with _ | _
    · refine ⟨?_, ?_, ?_, ?_⟩ <;>
        simp [cpu_mhz, boot_time, nproc, pages, KstatWrapper.open', hO]
    · refine ⟨?_, ?_, ?_, ?_⟩
      · rw [cpu_mhz_open h hO]
        exact cpuMhzList_ne_panicked _
      · rw [boot_time_open h hO]
        exact bootTimeList_ne_panicked _
      · rw [nproc_open h hO]
        exact nprocList_ne_panicked _
      · rw [pages_open h hO]
        exact pagesList_ne_panicked _

theorem module_name_unwrap_safe_witness :
    nproc ⟨true, [kMiscNoNproc]⟩ ≠ KResult.panicked ∧
    ((⟨[], [kMiscNoNproc], true⟩ : KstatWrapper).module).isSome = true :=
  ⟨(module_name_unwrap_safe.2.2 ⟨true, [kMiscNoNproc]⟩).2.2.1,
   (module_name_unwrap_safe.2.1 ⟨[], [kMiscNoNproc], false⟩
     ⟨[], [kMiscNoNproc], true⟩ (by decide)).1⟩

/-- C10: `cpu_mhz` converts the signed "clock_MHz" word to its unsigned
result by bit-pattern cast with no sign check: for any negative signed-word
value v supplied by the facility, the call returns Ok(v mod 2^64) — at
least 2^63, a very large unsigned integer — rather than an error. -/
theorem cpu_mhz_negative_cast (v : Int) (rest : List Kstat)
    (hlo : -(2 ^ 63) ≤ v) (hneg : v < 0) :
    cpu_mhz ⟨true, kCpuNeg v :: rest⟩ =
      KResult.ok ((v % (2 ^ 64 : Int)).toNat) ∧
    2 ^ 63 ≤ (v % (2 ^ 64 : Int)).toNat := by
  have h64 : (2 : Int) ^ 64 = 18446744073709551616 := by norm_num
  have h63 : (2 : Int) ^ 63 = 9223372036854775808 := by norm_num
  have hn64 : (2 : Nat) ^ 64 = 18446744073709551616 := by norm_num
  have hn63 : (2 : Nat) ^ 63 = 9223372036854775808 := by norm_num
  rw [h63] at hlo
  have hbits : valL ((v % (2 ^ 64 : Int)).toNat) = v := by
    unfold valL
    rw [hn64, hn63, h64]
    split <;> omega
  constructor
  · rw [cpu_mhz_open _ rfl]
    have hlk : kstat_lookup (kCpuNeg v :: rest) (some MODULE_CPU_INFO) none =
        kCpuNeg v :: rest := by
      simp only [kstat_lookup, List.dropWhile_cons]
      norm_num [strFilter, kCpuNeg, MODULE_CPU_INFO]
    have hbits2 : valL ((v % (18446744073709551616 : Int)).toNat) = v := by
      rw [← h64]
      exact hbits
    have hk : kLong (kCpuNeg v) STAT_CLOCK_MHZ = some v := by
      unfold kLong kField kstat_read kstat_data_lookup kCpuNeg
      simp [List.find?, STAT_CLOCK_MHZ, hbits, hbits2]
    show cpuMhzList
      (kstat_lookup (kCpuNeg v :: rest) (some MODULE_CPU_INFO) none) = _
    rw [hlk]
    simp only [cpuMhzList, hk]
    norm_num [kCpuNeg, MODULE_CPU_INFO]
  · rw [hn63]
    rw [h64] at *
    omega

theorem cpu_mhz_negative_cast_witness :
    cpu_mhz ⟨true, [kCpuNeg (-1)]⟩ =
      KResult.ok (((-1 : Int) % (2 ^ 64 : Int)).toNat) ∧
    2 ^ 63 ≤ (((-1 : Int) % (2 ^ 64 : Int)).toNat) :=
  cpu_mhz_negative_cast (-1) [] (by norm_num) (by norm_num)

end SysInfo
